import Mathlib

/-!
Shallow embedding of `src/main.py` (an HVAC part-finder HTTP endpoint).

The module has three parts:
* a process-wide initializer (lines 16-34) building the Pinecone client `pc`,
  the `index` handle and the `embedding_model`, with a catch-all `except`
  setting `pc = None` and `embedding_model = None`;
* `find_matching_parts` (lines 37-65), which embeds the description, queries
  the index and reshapes the matches;
* `query_part_finder` (lines 69-106), the HTTP entrypoint.

Python exceptions are modelled with `Except PyErr`; a value `.error e`
escaping `query_part_finder` models an uncaught exception propagating out of
the handler.  Parsed JSON request bodies are modelled by the inductive `Json`
(`request.get_json(silent=True)` yields `Option Json`, `none` for an
unparseable/absent body).  Python truthiness, the `in` operator, `[]`
indexing and `.get` on parsed JSON values are modelled by `truthy`,
`pyContains`, `pyIndex` and `pyGet`, including the `TypeError`s they raise on
non-container values.  The two external services (sentence-transformer
`encode` and Pinecone `index.query`) are oracles collected in `Env`; handles
themselves are opaque (`Option Unit`) in `ServiceState`.
-/

/-- A Python exception, carrying the text `str(e)` would produce. -/
inductive PyErr where
  | valueError (msg : String)
  | typeError (msg : String)
  | keyError (msg : String)
  | nameError (msg : String)
  | attributeError (msg : String)
  | exn (msg : String)
deriving DecidableEq, Repr

/-- The message of an exception, as interpolated by `str(e)` at line 106. -/
def PyErr.message : PyErr → String
  | .valueError m => m
  | .typeError m => m
  | .keyError m => m
  | .nameError m => m
  | .attributeError m => m
  | .exn m => m

/-- A parsed JSON value, the result of `request.get_json`. -/
inductive Json where
  | null
  | bool (b : Bool)
  | num (q : ℚ)
  | str (s : String)
  | arr (elems : List Json)
  | obj (fields : List (String × Json))

/-- Python truthiness of a parsed JSON value (`if not request_json`):
`None`, `False`, `0`, `""`, `[]` and `{}` are falsy, everything else truthy. -/
def truthy : Json → Bool
  | .null => false
  | .bool b => b
  | .num q => decide (q ≠ 0)
  | .str s => !s.isEmpty
  | .arr elems => !elems.isEmpty
  | .obj fields => !fields.isEmpty

/-- First-match key lookup in a JSON object's field list (Python dict lookup;
parsed JSON objects have unique keys, so first-match is dict semantics). -/
def jsonLookup : List (String × Json) → String → Option Json
  | [], _ => none
  | (k, v) :: rest, key => if k == key then some v else jsonLookup rest key

/-- Whether `needle` occurs at the head of `haystack` (character lists). -/
def listHasPre : List Char → List Char → Bool
  | [], _ => true
  | _ :: _, [] => false
  | a :: as, b :: bs => a == b && listHasPre as bs

/-- Whether `needle` occurs contiguously anywhere in `haystack`. -/
def listHasSub (needle : List Char) : List Char → Bool
  | [] => needle.isEmpty
  | b :: bs => listHasPre needle (b :: bs) || listHasSub needle bs

/-- Python substring test `needle in haystack` for strings. -/
def pyStrContains (needle haystack : String) : Bool :=
  listHasSub needle.data haystack.data

/-- Python membership `key in j` on a parsed JSON value: key membership for
dicts, substring for strings, element equality for lists, and a `TypeError`
for the non-container values (`int`/`float`, `bool`, `None`). -/
def pyContains : Json → String → Except PyErr Bool
  | .obj fields, key => .ok (fields.any (fun p => p.1 == key))
  | .str s, key => .ok (pyStrContains key s)
  | .arr elems, key =>
      .ok (elems.any (fun j => match j with | .str t => t == key | _ => false))
  | .num _, _ => .error (.typeError "argument of type int is not iterable")
  | .bool _, _ => .error (.typeError "argument of type bool is not iterable")
  | .null, _ => .error (.typeError "argument of type NoneType is not iterable")

/-- Python indexing `j[key]` with a string key: dict lookup (raising
`KeyError` when absent), `TypeError` on every non-dict value. -/
def pyIndex : Json → String → Except PyErr Json
  | .obj fields, key =>
      match jsonLookup fields key with
      | some v => .ok v
      | none => .error (.keyError key)
  | .str _, _ => .error (.typeError "string indices must be integers")
  | .arr _, _ => .error (.typeError "list indices must be integers or slices, not str")
  | .num _, _ => .error (.typeError "int object is not subscriptable")
  | .bool _, _ => .error (.typeError "bool object is not subscriptable")
  | .null, _ => .error (.typeError "NoneType object is not subscriptable")

/-- Python `j.get(key, default)`: defined for dicts only (`AttributeError`
otherwise), substituting `default` exactly when the key is absent. -/
def pyGet (j : Json) (key : String) (dflt : Json) : Except PyErr Json :=
  match j with
  | .obj fields => .ok ((jsonLookup fields key).getD dflt)
  | _ => .error (.attributeError "object has no attribute get")

/-- `round(x, 4)` of line 62: the score rounded to 4 decimal places. -/
def round4 (q : ℚ) : ℚ := (round (q * 10000) : ℤ) / 10000

/-- One match returned by the vector index (`{id, score, metadata}` per the
external service contract). -/
structure Match where
  id : String
  score : ℚ
  metadata : List (String × Json)

/-- One entry of the response's `matches` list, as built at lines 59-63. -/
structure MatchResult where
  part_number : String
  description : Json
  score : ℚ

/-- Serialization of a `MatchResult` into the JSON response body. -/
def MatchResult.toJson (r : MatchResult) : Json :=
  .obj [("part_number", .str r.part_number),
        ("description", r.description),
        ("score", .num r.score)]

/-- The external services: `embedding_model.encode([d]).tolist()[0]` (the
single embedding vector for the description) and
`index.query(vector, top_k, include_metadata)` (the `matches` list of the
query response).  Either call may raise.  The description and `top_k` reach
these services as whatever JSON values the request supplied. -/
structure Env where
  encode : Json → Except PyErr (List ℚ)
  queryIndex : List ℚ → Json → Bool → Except PyErr (List Match)

/-- The process-wide state after module initialization: the globals `pc`,
`index` and `embedding_model`, each either a (opaque) live handle or
unset (`None`, or never assigned). -/
structure ServiceState where
  pc : Option Unit
  index : Option Unit
  embedding_model : Option Unit

/-- The loop body at lines 58-63: build one result dict from one match,
raising `KeyError` when the match's metadata lacks `description`. -/
def processMatch (m : Match) : Except PyErr MatchResult :=
  match jsonLookup m.metadata "description" with
  | some d => .ok ⟨m.id, d, round4 m.score⟩
  | none => .error (.keyError "description")

/-- The loop at lines 57-63 over `query_results['matches']`, in order. -/
def processMatches : List Match → Except PyErr (List MatchResult)
  | [] => .ok []
  | m :: ms =>
      match processMatch m with
      | .error e => .error e
      | .ok r =>
          match processMatches ms with
          | .error e => .error e
          | .ok rs => .ok (r :: rs)

/-- `find_matching_parts` (lines 37-65): guard on
`not embedding_model or not pc`, then embed, query the index (a `NameError`
if the global `index` was never assigned), and reshape the matches. -/
def find_matching_parts (st : ServiceState) (env : Env)
    (technician_description : Json) (top_k : Json) :
    Except PyErr (String × List MatchResult) :=
  if st.embedding_model.isNone || st.pc.isNone then
    .ok ("Service not initialized.", [])
  else
    match env.encode technician_description with
    | .error e => .error e
    | .ok query_vector =>
      match st.index with
      | none => .error (.nameError "name index is not defined")
      | some _ =>
        match env.queryIndex query_vector top_k true with
        | .error e => .error e
        | .ok query_results =>
          match processMatches query_results with
          | .error e => .error e
          | .ok match_list => .ok ("Success", match_list)

/-- An HTTP response as produced by one of the handler's `return` statements:
a JSON body, a status code, and the extra headers attached to the return
value.  Every `return` in the source is a `(jsonify(...), code)` two-tuple,
which attaches no extra headers. -/
structure HttpResponse where
  body : Json
  status : Nat
  headers : List (String × String)

/-- The `headers` local built at lines 76-78 (and never used afterwards). -/
def headers : List (String × String) :=
  [("Access-Control-Allow-Origin", "*")]

/-- Body of the 500 response for a failed initialization (line 82). -/
def initFailedJson : Json :=
  .obj [("error", .str "Service initialization failed. Check server logs.")]

/-- Body of the 400 response for a missing description (line 87). -/
def missingDescriptionJson : Json :=
  .obj [("error", .str "Missing \x27description\x27 in request body.")]

/-- Body of the 500 response when the search raised (line 106). -/
def searchErrorJson (e : PyErr) : Json :=
  .obj [("error", .str ("An unexpected search error occurred: " ++ e.message))]

/-- Body of the 200 response (lines 97-102). -/
def successJson (description : Json) (status : String)
    (match_list : List MatchResult) : Json :=
  .obj [("query_description", description),
        ("status", .str status),
        ("matches", .arr (match_list.map MatchResult.toJson))]

/-- `query_part_finder` (lines 69-106).  `request_json` is the result of
`request.get_json(silent=True)`.  The checks mirror the source order:
initialization guard, `not request_json or 'description' not in
request_json` (short-circuit, so membership — which can raise `TypeError` on
a truthy non-container body — is only evaluated on truthy bodies), then
`request_json['description']` and `request_json.get('top_k', 3)` outside the
`try`, and finally the `try/except` around `find_matching_parts` and the
success response. -/
def query_part_finder (st : ServiceState) (env : Env)
    (request_json : Option Json) : Except PyErr HttpResponse :=
  if st.embedding_model.isNone || st.pc.isNone then
    .ok ⟨initFailedJson, 500, []⟩
  else
    match request_json with
    | none => .ok ⟨missingDescriptionJson, 400, []⟩
    | some j =>
      if !truthy j then
        .ok ⟨missingDescriptionJson, 400, []⟩
      else
        match pyContains j "description" with
        | .error e => .error e
        | .ok c =>
          if !c then
            .ok ⟨missingDescriptionJson, 400, []⟩
          else
            match pyIndex j "description" with
            | .error e => .error e
            | .ok description =>
              match pyGet j "top_k" (.num 3) with
              | .error e => .error e
              | .ok top_k =>
                match find_matching_parts st env description top_k with
                | .error e => .ok ⟨searchErrorJson e, 500, []⟩
                | .ok (status, match_list) =>
                    .ok ⟨successJson description status match_list, 200, []⟩

/-- Module initialization (lines 16-34).  `pinecone_key` models
`os.environ.get("PINECONE_KEY")`; the empty string is falsy, so it also
triggers the `ValueError`.  `pinecone_ctor`, `index_ctor` and `model_load`
are the outcomes of the three constructor calls.  The `except` block sets
`pc = None` and `embedding_model = None` only: if the model load (step 4)
fails, the already-assigned `index` global keeps its handle; in the earlier
failure cases `index` was never assigned (modelled as `none`). -/
def moduleInit (pinecone_key : Option String)
    (pinecone_ctor index_ctor model_load : Except PyErr Unit) : ServiceState :=
  match pinecone_key with
  | none => ⟨none, none, none⟩
  | some k =>
    if k.isEmpty then ⟨none, none, none⟩
    else
      match pinecone_ctor with
      | .error _ => ⟨none, none, none⟩
      | .ok pcH =>
        match index_ctor with
        | .error _ => ⟨none, none, none⟩
        | .ok ixH =>
          match model_load with
          | .error _ => ⟨none, some ixH, none⟩
          | .ok mH => ⟨some pcH, some ixH, some mH⟩

/-- A `ServiceState` producible by the module initializer. -/
def Reachable (st : ServiceState) : Prop :=
  ∃ key pcC ixC mdl, moduleInit key pcC ixC mdl = st

/-- Field lookup on a JSON value: the object's field, `none` on non-objects. -/
def bodyLookup (j : Json) (key : String) : Option Json :=
  match j with
  | .obj fields => jsonLookup fields key
  | _ => none

/-- A fully initialized service state: all three globals hold handles. -/
def stHealthy : ServiceState := ⟨some (), some (), some ()⟩

/-- The state after an initialization failure in steps 1-3: all unset. -/
def stFailed : ServiceState := ⟨none, none, none⟩

/-- A concrete environment: a fixed one-component embedding and an index
returning two matches with descending scores. -/
def envTwo : Env :=
  ⟨fun _ => .ok [1],
   fun _ _ _ => .ok [⟨"p1", 3/4, [("description", .str "fan motor")]⟩,
                     ⟨"p2", 1/4, [("description", .str "blower")]⟩]⟩

/-- A concrete environment whose embedding call raises. -/
def envRaise : Env :=
  ⟨fun _ => .error (.exn "boom"), fun _ _ _ => .ok []⟩

/-! ### Helper lemmas -/

theorem round4_mono : Monotone round4 := by
  intro a b hab
  unfold round4
  have h1 : round (a * 10000) ≤ round (b * 10000) := by
    rw [round_eq, round_eq]
    exact Int.floor_mono (by linarith)
  have h2 : ((round (a * 10000) : ℤ) : ℚ) ≤ ((round (b * 10000) : ℤ) : ℚ) := by
    exact_mod_cast h1
  exact div_le_div_of_nonneg_right h2 (by norm_num)

theorem jsonLookup_any {fields : List (String × Json)} {key : String} {v : Json}
    (h : jsonLookup fields key = some v) :
    fields.any (fun p => p.1 == key) = true := by
  induction fields with
  | nil => simp [jsonLookup] at h
  | cons p rest ih =>
    obtain ⟨k, w⟩ := p
    by_cases hk : k == key
    · simp [hk]
    · simp only [jsonLookup, hk, if_neg, Bool.false_eq_true, if_false] at h
      simp [hk, ih h]

theorem jsonLookup_isSome_of_any {fields : List (String × Json)} {key : String}
    (h : fields.any (fun p => p.1 == key) = true) :
    (jsonLookup fields key).isSome := by
  induction fields with
  | nil => simp at h
  | cons p rest ih =>
    obtain ⟨k, w⟩ := p
    by_cases hk : k == key
    · simp [jsonLookup, hk]
    · simp only [List.any_cons, hk, Bool.false_or] at h
      simp [jsonLookup, hk, ih h]

theorem jsonLookup_ne_nil {fields : List (String × Json)} {key : String} {v : Json}
    (h : jsonLookup fields key = some v) : fields ≠ [] := by
  intro hnil
  subst hnil
  simp [jsonLookup] at h

theorem reach_cases (st : ServiceState) (h : Reachable st) :
    st = ⟨none, none, none⟩ ∨ st = ⟨none, some (), none⟩ ∨
    st = ⟨some (), some (), some ()⟩ := by
  obtain ⟨key, pcC, ixC, mdl, rfl⟩ := h
  rcases key with _ | k
  · exact Or.inl rfl
  · rcases pcC with e1 | u1 <;> rcases ixC with e2 | u2 <;> rcases mdl with e3 | u3 <;>
      by_cases hk : k.isEmpty <;> simp [moduleInit, hk]

theorem query_part_finder_obj (st : ServiceState) (env : Env)
    (fields : List (String × Json)) (d : Json)
    (hm : st.embedding_model = some ()) (hp : st.pc = some ())
    (hd : jsonLookup fields "description" = some d) :
    query_part_finder st env (some (.obj fields)) =
      match find_matching_parts st env d
          ((jsonLookup fields "top_k").getD (.num 3)) with
      | .error e => .ok ⟨searchErrorJson e, 500, []⟩
      | .ok (status, match_list) => .ok ⟨successJson d status match_list, 200, []⟩ := by
  have hne : fields ≠ [] := jsonLookup_ne_nil hd
  have hany : fields.any (fun p => p.1 == "description") = true := jsonLookup_any hd
  have hie : fields.isEmpty = false := by
    cases fields with
    | nil => exact absurd rfl hne
    | cons a as => rfl
  unfold query_part_finder
  rw [hm, hp]
  simp only [Option.isNone_some, Bool.or_self, Bool.false_eq_true, if_false, truthy,
    hie, Bool.not_false, Bool.not_true, pyContains, hany, pyIndex, hd, pyGet]

theorem find_matching_parts_healthy (st : ServiceState) (env : Env)
    (d k : Json) (v : List ℚ)
    (hm : st.embedding_model = some ()) (hp : st.pc = some ())
    (hix : st.index = some ()) (henc : env.encode d = .ok v) :
    find_matching_parts st env d k =
      match env.queryIndex v k true with
      | .error e => .error e
      | .ok query_results =>
        match processMatches query_results with
        | .error e => .error e
        | .ok match_list => .ok ("Success", match_list) := by
  unfold find_matching_parts
  rw [hm, hp, hix, henc]
  simp [Option.isNone]

theorem find_matching_parts_ok_success (st : ServiceState) (env : Env)
    (d k : Json) (s : String) (rs : List MatchResult)
    (hguard : (st.embedding_model.isNone || st.pc.isNone) = false)
    (h : find_matching_parts st env d k = .ok (s, rs)) : s = "Success" := by
  unfold find_matching_parts at h
  rw [hguard] at h
  simp only [Bool.false_eq_true, if_false] at h
  repeat' split at h
  all_goals first
    | (simp only [Except.ok.injEq, Prod.mk.injEq] at h
       exact h.1.symm)
    | exact absurd h (by simp)

theorem processMatches_map (ms : List Match)
    (hmeta : ms.all (fun m => (jsonLookup m.metadata "description").isSome) = true) :
    processMatches ms =
      .ok (ms.map fun m =>
        ⟨m.id, (jsonLookup m.metadata "description").getD .null, round4 m.score⟩) := by
  induction ms with
  | nil => rfl
  | cons m rest ih =>
    simp only [List.all_cons, Bool.and_eq_true] at hmeta
    obtain ⟨dm, hdm⟩ := Option.isSome_iff_exists.mp hmeta.1
    unfold processMatches processMatch
    rw [hdm, ih hmeta.2]
    simp [hdm]

theorem jsonLookup_none_any {fields : List (String × Json)} {key : String}
    (h : jsonLookup fields key = none) :
    fields.any (fun p => p.1 == key) = false := by
  cases ha : fields.any (fun p => p.1 == key) with
  | false => rfl
  | true =>
    have hs := jsonLookup_isSome_of_any ha
    rw [h] at hs
    simp at hs

/-! ### Claim theorems -/

/-- C3 counterexample: when the key is present, the Pinecone client and the
index handle are constructed, and then the embedding-model load fails, the
`except` block (which only resets `pc` and `embedding_model`) leaves the
`index` handle set while the other two are unset — a partially-initialized
state, contradicting the all-or-nothing invariant. -/
theorem C3_counterexample :
    (moduleInit (some "key") (.ok ()) (.ok ())
        (.error (.exn "model load failed"))).index = some () ∧
    (moduleInit (some "key") (.ok ()) (.ok ())
        (.error (.exn "model load failed"))).pc = none ∧
    (moduleInit (some "key") (.ok ()) (.ok ())
        (.error (.exn "model load failed"))).embedding_model = none :=
  ⟨rfl, rfl, rfl⟩

/-- C3 (amended): after initialization, either all three handles are set, or
`pc` and `embedding_model` are both unset; in the latter case `index` may
still hold a handle (exactly when only the model load, step 4, failed). -/
theorem C3_amended_init_invariant (key : Option String)
    (pcC ixC mdl : Except PyErr Unit) :
    ((moduleInit key pcC ixC mdl).pc = some () ∧
     (moduleInit key pcC ixC mdl).index = some () ∧
     (moduleInit key pcC ixC mdl).embedding_model = some ()) ∨
    ((moduleInit key pcC ixC mdl).pc = none ∧
     (moduleInit key pcC ixC mdl).embedding_model = none) := by
  rcases key with _ | k
  · exact Or.inr ⟨rfl, rfl⟩
  · rcases pcC with e1 | u1 <;> rcases ixC with e2 | u2 <;> rcases mdl with e3 | u3 <;>
      by_cases hk : k.isEmpty <;> simp [moduleInit, hk]

/-- C5: for every state the initializer can actually produce, if any of the
three handles is unset then the handler answers 500 with the fixed
initialization-failure body, for every environment and every request body —
so the answer precedes any body parsing and any external call. -/
theorem C5_degraded_fixed_500 (st : ServiceState) (hre : Reachable st)
    (hdeg : st.pc = none ∨ st.index = none ∨ st.embedding_model = none) :
    ∀ (env : Env) (body : Option Json),
      query_part_finder st env body = .ok ⟨initFailedJson, 500, []⟩ := by
  rcases reach_cases st hre with rfl | rfl | rfl
  · intro env body; rfl
  · intro env body; rfl
  · rcases hdeg with h | h | h <;> simp at h

/-- C5 witness: the all-unset state is reachable (absent key) and a request
carrying a valid body still gets the fixed 500. -/
theorem C5_witness :
    query_part_finder stFailed envTwo (some (.obj [("description", .str "x")])) =
      .ok ⟨initFailedJson, 500, []⟩ :=
  C5_degraded_fixed_500 stFailed ⟨none, .ok (), .ok (), .ok (), rfl⟩ (Or.inl rfl)
    envTwo (some (.obj [("description", .str "x")]))

/-- C9: for every state the initializer can actually produce, if any handle
is unset then `find_matching_parts` returns the not-initialized status with
an empty list, identically for every environment — so neither the embedding
model nor the index is consulted. -/
theorem C9_degraded_matcher_noop (st : ServiceState) (hre : Reachable st)
    (hdeg : st.pc = none ∨ st.index = none ∨ st.embedding_model = none) :
    ∀ (env : Env) (d k : Json),
      find_matching_parts st env d k = .ok ("Service not initialized.", []) := by
  rcases reach_cases st hre with rfl | rfl | rfl
  · intro env d k; rfl
  · intro env d k; rfl
  · rcases hdeg with h | h | h <;> simp at h

/-- C9 witness: concrete degraded reachable state, concrete call. -/
theorem C9_witness :
    find_matching_parts stFailed envTwo (.str "x") (.num 3) =
      .ok ("Service not initialized.", []) :=
  C9_degraded_matcher_noop stFailed ⟨none, .ok (), .ok (), .ok (), rfl⟩ (Or.inl rfl)
    envTwo (.str "x") (.num 3)

/-- C2: every `return` in the handler is a `(jsonify(...), code)` two-tuple,
so no produced response carries any extra header; in particular the
`Access-Control-Allow-Origin` entry of the dead `headers` local is attached
to no response, refuting the claim that every response carries it. -/
theorem C2_no_cors_header_attached (st : ServiceState) (env : Env)
    (body : Option Json) (r : HttpResponse)
    (h : query_part_finder st env body = .ok r) :
    r.headers = [] ∧ ("Access-Control-Allow-Origin", "*") ∉ r.headers := by
  unfold query_part_finder at h
  repeat' split at h
  all_goals first
    | (simp only [Except.ok.injEq] at h
       subst h
       exact ⟨rfl, by simp⟩)
    | exact absurd h (by simp)

/-- C2 witness: a concrete response (degraded state) carries no headers. -/
theorem C2_witness :
    ∃ r : HttpResponse, query_part_finder stFailed envTwo none = .ok r ∧
      r.headers = [] ∧ ("Access-Control-Allow-Origin", "*") ∉ r.headers :=
  ⟨⟨initFailedJson, 500, []⟩, rfl,
   C2_no_cors_header_attached stFailed envTwo none ⟨initFailedJson, 500, []⟩ rfl⟩

/-- C4: with all handles set, a successful embedding, and an index answer
whose matches all carry a `description` metadata field, the matcher returns
status `"Success"` and exactly one result per index match, in the index's
order: identifier = the match id, description = the metadata `description`
field, score = the match score rounded to 4 decimal places.  Consequently
the cardinalities agree (hence stay within any bound the index honored),
every score is an integer number of 1/10000ths, and a non-increasing index
ordering is preserved (no re-ranking, deduplication, or filtering). -/
theorem C4_success_mapping (st : ServiceState) (env : Env) (d k : Json)
    (v : List ℚ) (ms : List Match)
    (hm : st.embedding_model = some ()) (hp : st.pc = some ())
    (hix : st.index = some ())
    (henc : env.encode d = .ok v)
    (hq : env.queryIndex v k true = .ok ms)
    (hmeta : ms.all (fun m => (jsonLookup m.metadata "description").isSome) = true) :
    ∃ rs : List MatchResult,
      find_matching_parts st env d k = .ok ("Success", rs) ∧
      rs = ms.map (fun m =>
        ⟨m.id, (jsonLookup m.metadata "description").getD .null, round4 m.score⟩) ∧
      rs.length = ms.length ∧
      (List.Pairwise (fun a b : Match => b.score ≤ a.score) ms →
        List.Pairwise (fun a b : MatchResult => b.score ≤ a.score) rs) ∧
      (∀ n : ℕ, ms.length ≤ n → rs.length ≤ n) ∧
      (∀ r ∈ rs, ∃ z : ℤ, r.score = (z : ℚ) / 10000) := by
  refine ⟨ms.map (fun m =>
    ⟨m.id, (jsonLookup m.metadata "description").getD .null, round4 m.score⟩),
    ?_, rfl, by simp, ?_, by simp, ?_⟩
  · rw [find_matching_parts_healthy st env d k v hm hp hix henc, hq]
    dsimp only
    rw [processMatches_map ms hmeta]
  · intro hms
    rw [List.pairwise_map]
    exact hms.imp (fun hab => round4_mono hab)
  · intro r hr
    rw [List.mem_map] at hr
    obtain ⟨m, _, rfl⟩ := hr
    exact ⟨round (m.score * 10000), rfl⟩

/-- C4 witness: concrete healthy state against the two-match index. -/
theorem C4_witness :
    ∃ rs : List MatchResult,
      find_matching_parts stHealthy envTwo (.str "x") (.num 2) = .ok ("Success", rs) ∧
      rs = [⟨"p1", (3:ℚ)/4, [("description", .str "fan motor")]⟩,
            ⟨"p2", (1:ℚ)/4, [("description", .str "blower")]⟩].map (fun m : Match =>
        ⟨m.id, (jsonLookup m.metadata "description").getD .null, round4 m.score⟩) ∧
      rs.length = 2 ∧
      (List.Pairwise (fun a b : Match => b.score ≤ a.score)
          [⟨"p1", (3:ℚ)/4, [("description", .str "fan motor")]⟩,
           ⟨"p2", (1:ℚ)/4, [("description", .str "blower")]⟩] →
        List.Pairwise (fun a b : MatchResult => b.score ≤ a.score) rs) ∧
      (∀ n : ℕ, 2 ≤ n → rs.length ≤ n) ∧
      (∀ r ∈ rs, ∃ z : ℤ, r.score = (z : ℚ) / 10000) :=
  C4_success_mapping stHealthy envTwo (.str "x") (.num 2) [1]
    [⟨"p1", (3:ℚ)/4, [("description", .str "fan motor")]⟩,
     ⟨"p2", (1:ℚ)/4, [("description", .str "blower")]⟩]
    rfl rfl rfl rfl rfl rfl

/-- C6 counterexample: a request whose JSON body is the string
`"a description of a part"` has no `description` field, yet the handler does
not answer 400: the Python `in` substring test passes, and the subsequent
`request_json['description']` — outside the `try` — raises an uncaught
`TypeError`, so no response at all is produced. -/
theorem C6_counterexample :
    query_part_finder stHealthy envTwo (some (.str "a description of a part")) =
      .error (.typeError "string indices must be integers") :=
  rfl

/-- C6 (amended): with both guarded handles set, a request whose body is
absent, falsy (e.g. `{}`), or a JSON object without a `description` key gets
exactly the fixed 400 response, identically for every environment (so the
Matcher reaches no external call); truthy non-object bodies can instead
raise an uncaught `TypeError` (see the counterexample). -/
theorem C6_missing_description_400 (st : ServiceState) (env : Env)
    (body : Option Json)
    (hm : st.embedding_model = some ()) (hp : st.pc = some ())
    (hbad : body = none ∨ (∃ j, body = some j ∧ truthy j = false) ∨
      (∃ fields, body = some (.obj fields) ∧ jsonLookup fields "description" = none)) :
    query_part_finder st env body = .ok ⟨missingDescriptionJson, 400, []⟩ := by
  have hg : (st.embedding_model.isNone || st.pc.isNone) = false := by
    rw [hm, hp]; rfl
  rcases hbad with rfl | ⟨j, rfl, hj⟩ | ⟨fields, rfl, hf⟩
  · simp [query_part_finder, hg]
  · simp [query_part_finder, hg, hj]
  · have hany : fields.any (fun p => p.1 == "description") = false :=
      jsonLookup_none_any hf
    by_cases hie : fields.isEmpty
    · simp [query_part_finder, hg, truthy, hie]
    · simp [query_part_finder, hg, truthy, hie, pyContains, hany]

/-- C6 witness: the spec's own test vector, body `{}`. -/
theorem C6_witness :
    query_part_finder stHealthy envTwo (some (.obj [])) =
      .ok ⟨missingDescriptionJson, 400, []⟩ :=
  C6_missing_description_400 stHealthy envTwo (some (.obj [])) rfl rfl
    (Or.inr (Or.inl ⟨.obj [], rfl, rfl⟩))

/-- C7: with both guarded handles set and an object body carrying
`description`, the handler answers 500 exactly when `find_matching_parts`
raised, and then the body is the fixed prefix followed by the exception's own
message; conversely every 500 on such a request arises this way. -/
theorem C7_matcher_error_500 (st : ServiceState) (env : Env)
    (fields : List (String × Json)) (d : Json)
    (hm : st.embedding_model = some ()) (hp : st.pc = some ())
    (hd : jsonLookup fields "description" = some d) :
    ∀ b : Json,
      query_part_finder st env (some (.obj fields)) = .ok ⟨b, 500, []⟩ ↔
      ∃ e : PyErr,
        find_matching_parts st env d
            ((jsonLookup fields "top_k").getD (.num 3)) = .error e ∧
        b = searchErrorJson e := by
  intro b
  rw [query_part_finder_obj st env fields d hm hp hd]
  constructor
  · intro h
    rcases hfm : find_matching_parts st env d
        ((jsonLookup fields "top_k").getD (.num 3)) with e | ⟨s, ml⟩ <;>
      rw [hfm] at h <;> dsimp only at h
    · simp only [Except.ok.injEq, HttpResponse.mk.injEq] at h
      exact ⟨e, rfl, h.1.symm⟩
    · simp at h
  · rintro ⟨e, he, rfl⟩
    rw [he]

/-- C7 witness: an environment whose embedding call raises `boom`. -/
theorem C7_witness :
    query_part_finder stHealthy envRaise (some (.obj [("description", .str "x")])) =
      .ok ⟨searchErrorJson (.exn "boom"), 500, []⟩ :=
  (C7_matcher_error_500 stHealthy envRaise [("description", .str "x")] (.str "x")
      rfl rfl rfl (searchErrorJson (.exn "boom"))).mpr
    ⟨.exn "boom", rfl, rfl⟩

/-- C8: the `top_k` actually handed to the Matcher is
`(jsonLookup fields "top_k").getD (.num 3)` — i.e. the literal default 3
exactly when the key is absent, and the caller's value verbatim otherwise
(whatever it is; no bounds check exists anywhere) — and a healthy Matcher
hands its `top_k` argument verbatim to the index query. -/
theorem C8_topk_passthrough (st : ServiceState) (env : Env)
    (fields : List (String × Json)) (d : Json)
    (hm : st.embedding_model = some ()) (hp : st.pc = some ())
    (hd : jsonLookup fields "description" = some d) :
    ((jsonLookup fields "top_k" = none →
        (jsonLookup fields "top_k").getD (.num 3) = .num 3) ∧
     (∀ w, jsonLookup fields "top_k" = some w →
        (jsonLookup fields "top_k").getD (.num 3) = w)) ∧
    (query_part_finder st env (some (.obj fields)) =
      match find_matching_parts st env d
          ((jsonLookup fields "top_k").getD (.num 3)) with
      | .error e => .ok ⟨searchErrorJson e, 500, []⟩
      | .ok (status, ml) => .ok ⟨successJson d status ml, 200, []⟩) ∧
    (∀ (st2 : ServiceState) (env2 : Env) (d2 k2 : Json) (v : List ℚ),
      st2.embedding_model = some () → st2.pc = some () → st2.index = some () →
      env2.encode d2 = .ok v →
      find_matching_parts st2 env2 d2 k2 =
        match env2.queryIndex v k2 true with
        | .error e => .error e
        | .ok qr =>
          match processMatches qr with
          | .error e => .error e
          | .ok ml => .ok ("Success", ml)) :=
  ⟨⟨fun h => by rw [h]; rfl, fun w h => by rw [h]; rfl⟩,
   query_part_finder_obj st env fields d hm hp hd,
   fun st2 env2 d2 k2 v h1 h2 h3 h4 =>
     find_matching_parts_healthy st2 env2 d2 k2 v h1 h2 h3 h4⟩

/-- C8 witness: body `{"description": "x"}` with `top_k` omitted. -/
theorem C8_witness :
    ((jsonLookup [("description", Json.str "x")] "top_k" = none →
        (jsonLookup [("description", Json.str "x")] "top_k").getD (.num 3) = .num 3) ∧
     (∀ w, jsonLookup [("description", Json.str "x")] "top_k" = some w →
        (jsonLookup [("description", Json.str "x")] "top_k").getD (.num 3) = w)) ∧
    (query_part_finder stHealthy envTwo (some (.obj [("description", .str "x")])) =
      match find_matching_parts stHealthy envTwo (.str "x")
          ((jsonLookup [("description", Json.str "x")] "top_k").getD (.num 3)) with
      | .error e => .ok ⟨searchErrorJson e, 500, []⟩
      | .ok (status, ml) => .ok ⟨successJson (.str "x") status ml, 200, []⟩) ∧
    (∀ (st2 : ServiceState) (env2 : Env) (d2 k2 : Json) (v : List ℚ),
      st2.embedding_model = some () → st2.pc = some () → st2.index = some () →
      env2.encode d2 = .ok v →
      find_matching_parts st2 env2 d2 k2 =
        match env2.queryIndex v k2 true with
        | .error e => .error e
        | .ok qr =>
          match processMatches qr with
          | .error e => .error e
          | .ok ml => .ok ("Success", ml)) :=
  C8_topk_passthrough stHealthy envTwo [("description", .str "x")] (.str "x")
    rfl rfl rfl

/-- C10: whenever the handler answers 200, the body's `status` field is
exactly `"Success"`: the handler's guard equals the Matcher's guard, so the
Matcher's `"Service not initialized."` branch is unreachable from a 200. -/
theorem C10_status_success_on_200 (st : ServiceState) (env : Env)
    (body : Option Json) (b : Json) (hdrs : List (String × String))
    (h : query_part_finder st env body = .ok ⟨b, 200, hdrs⟩) :
    bodyLookup b "status" = some (.str "Success") := by
  unfold query_part_finder at h
  cases hgc : (st.embedding_model.isNone || st.pc.isNone) with
  | true => rw [hgc] at h; simp at h
  | false =>
    rw [hgc] at h
    simp only [Bool.false_eq_true, if_false] at h
    cases body with
    | none => simp at h
    | some j =>
      dsimp only at h
      cases htr : truthy j with
      | false => rw [htr] at h; simp at h
      | true =>
        rw [htr] at h
        simp only [Bool.not_true, Bool.false_eq_true, if_false] at h
        rcases hc : pyContains j "description" with e | c <;>
          rw [hc] at h <;> dsimp only at h
        · simp at h
        · cases c with
          | false => simp at h
          | true =>
            simp only [Bool.not_true, Bool.false_eq_true, if_false] at h
            rcases hpi : pyIndex j "description" with e | desc <;>
              rw [hpi] at h <;> dsimp only at h
            · simp at h
            · rcases hpg : pyGet j "top_k" (.num 3) with e | tk <;>
                rw [hpg] at h <;> dsimp only at h
              · simp at h
              · rcases hfm : find_matching_parts st env desc tk with e | ⟨s, ml⟩ <;>
                  rw [hfm] at h <;> dsimp only at h
                · simp at h
                · simp only [Except.ok.injEq, HttpResponse.mk.injEq] at h
                  obtain ⟨hb, -, -⟩ := h
                  subst hb
                  rw [find_matching_parts_ok_success st env desc tk s ml hgc hfm]
                  rfl

/-- C10 witness: a concrete 200 answer indeed carries status `"Success"`. -/
theorem C10_witness :
    bodyLookup (successJson (.str "x") "Success"
      [⟨"p1", .str "fan motor", round4 ((3:ℚ)/4)⟩,
       ⟨"p2", .str "blower", round4 ((1:ℚ)/4)⟩]) "status" = some (.str "Success") :=
  C10_status_success_on_200 stHealthy envTwo (some (.obj [("description", .str "x")]))
    (successJson (.str "x") "Success"
      [⟨"p1", .str "fan motor", round4 ((3:ℚ)/4)⟩,
       ⟨"p2", .str "blower", round4 ((1:ℚ)/4)⟩]) [] rfl

/-- C1 counterexample: the request body `5` (a valid JSON document) defeats
the claim: `not request_json` is false (5 is truthy) and
`'description' not in request_json` raises `TypeError` — outside any `try` —
so an uncaught exception propagates out of the handler and no JSON body or
status code is produced at all. -/
theorem C1_counterexample :
    query_part_finder stHealthy envTwo (some (.num 5)) =
      .error (.typeError "argument of type int is not iterable") :=
  rfl

/-- C1 (amended): for every state and environment, a request whose JSON body
is absent, falsy, or a JSON object always gets a returned response — a JSON
body holding either an `error` string or a `matches` array, paired with a
status code — and no exception escapes; bodies that are truthy non-objects
can instead raise an uncaught `TypeError` (see the counterexample). -/
theorem C1_handler_total_on_safe_bodies (st : ServiceState) (env : Env)
    (body : Option Json)
    (hbody : body = none ∨ ∃ j, body = some j ∧
      (truthy j = false ∨ ∃ fields, j = .obj fields)) :
    ∃ r : HttpResponse, query_part_finder st env body = .ok r ∧
      ((∃ s, bodyLookup r.body "error" = some (.str s)) ∨
       (∃ xs, bodyLookup r.body "matches" = some (.arr xs))) := by
  cases hgc : (st.embedding_model.isNone || st.pc.isNone) with
  | true =>
    exact ⟨⟨initFailedJson, 500, []⟩, by simp [query_part_finder, hgc],
      Or.inl ⟨_, rfl⟩⟩
  | false =>
    have hguard : st.embedding_model.isNone = false ∧ st.pc.isNone = false := by
      simpa using hgc
    have hm : st.embedding_model = some () := by
      rcases hme : st.embedding_model with _ | u
      · rw [hme] at hguard; simp at hguard
      · rfl
    have hp : st.pc = some () := by
      rcases hpe : st.pc with _ | u
      · rw [hpe] at hguard; simp at hguard
      · rfl
    rcases hbody with rfl | ⟨j, rfl, hj | ⟨fields, rfl⟩⟩
    · exact ⟨⟨missingDescriptionJson, 400, []⟩, by simp [query_part_finder, hgc],
        Or.inl ⟨_, rfl⟩⟩
    · exact ⟨⟨missingDescriptionJson, 400, []⟩,
        by simp [query_part_finder, hgc, hj], Or.inl ⟨_, rfl⟩⟩
    · rcases hl : jsonLookup fields "description" with _ | d
      · have hany := jsonLookup_none_any hl
        by_cases hie : fields.isEmpty
        · exact ⟨⟨missingDescriptionJson, 400, []⟩,
            by simp [query_part_finder, hgc, truthy, hie], Or.inl ⟨_, rfl⟩⟩
        · exact ⟨⟨missingDescriptionJson, 400, []⟩,
            by simp [query_part_finder, hgc, truthy, hie, pyContains, hany],
            Or.inl ⟨_, rfl⟩⟩
      · rw [query_part_finder_obj st env fields d hm hp hl]
        rcases hfm : find_matching_parts st env d
            ((jsonLookup fields "top_k").getD (.num 3)) with e | ⟨s, ml⟩
        · exact ⟨⟨searchErrorJson e, 500, []⟩, rfl, Or.inl ⟨_, rfl⟩⟩
        · exact ⟨⟨successJson d s ml, 200, []⟩, rfl,
            Or.inr ⟨ml.map MatchResult.toJson, rfl⟩⟩

/-- C1 witness: a well-formed object body gets a 200-family response with a
`matches` array. -/
theorem C1_witness :
    ∃ r : HttpResponse,
      query_part_finder stHealthy envTwo
        (some (.obj [("description", .str "x")])) = .ok r ∧
      ((∃ s, bodyLookup r.body "error" = some (.str s)) ∨
       (∃ xs, bodyLookup r.body "matches" = some (.arr xs))) :=
  C1_handler_total_on_safe_bodies stHealthy envTwo
    (some (.obj [("description", .str "x")]))
    (Or.inr ⟨.obj [("description", .str "x")], rfl,
      Or.inr ⟨[("description", .str "x")], rfl⟩⟩)
